import Mathlib

/-!
Verification development for a marketing-site backend (Django project with
apps `main` and `dashboard`).  The definitions below are a shallow embedding
of the Python source: pure string helpers mirror the Python `str` methods
used by the code, the Django models become Lean structures, the ORM tables
become lists, and the view functions become pure functions over that state.
External effects (HTTP geolocation lookup, user-agent parsing, outbound
email) are modelled as explicit inputs or effect traces.
-/

namespace Portfolio

/-! ## String helpers mirroring the Python `str` methods used by the code -/

/-- Embedding of Python `str.strip()`: drop whitespace from both ends. -/
def pyStrip (s : String) : String :=
  String.mk (((s.data.dropWhile Char.isWhitespace).reverse.dropWhile Char.isWhitespace).reverse)

/-- Embedding of Python `str.lower()` (ASCII case folding). -/
def pyLower (s : String) : String :=
  String.mk (s.data.map Char.toLower)

/-- Embedding of Python `str.split(sep)` for a single-character separator,
on the character list.  `splitOnChar sep l` never returns `[]`. -/
def splitOnChar (sep : Char) : List Char → List (List Char)
  | [] => [[]]
  | c :: rest =>
    match splitOnChar sep rest with
    | [] => if c = sep then [[], []] else [[c]]
    | h :: t => if c = sep then [] :: h :: t else (c :: h) :: t

/-- Embedding of Python `str.split(sep)` for a single-character separator. -/
def pySplit (sep : Char) (s : String) : List String :=
  (splitOnChar sep s.data).map String.mk

/-! ## Data model (from `src/main/models.py`) -/

/-- An uploaded file as seen by the view: original filename and size in
bytes (Django `UploadedFile.name` / `UploadedFile.size`). -/
structure UploadedFile where
  name : String
  size : Nat
deriving DecidableEq

/-- The POST payload of the contact form as read by `handle_contact_form`
(`request.POST` fields and the optional `request.FILES` attachment). -/
structure FormData where
  name : String
  whatsapp : String
  email : String
  project_description : String
  attachment : Option UploadedFile
deriving DecidableEq

/-- The `Contact` model of `src/main/models.py`.  `created_day` abstracts
the `created_at` auto-now timestamp to its date. -/
structure Contact where
  name : String
  whatsapp : String
  email : String
  project_description : String
  attachment : Option UploadedFile
  created_day : Nat
  is_read : Bool
  notes : String
deriving DecidableEq

/-- A timestamp split into its date (`day`) and a time-of-day component,
so that `timestamp__date` is the `day` projection and timestamp comparison
is the lexicographic order below. -/
structure Timestamp where
  day : Nat
  tod : Nat
deriving DecidableEq

/-- Strict comparison of timestamps (`timestamp__lt` in the ORM query of
`PageView.is_unique_visitor`). -/
def Timestamp.isBefore (a b : Timestamp) : Bool :=
  a.day < b.day || (a.day == b.day && a.tod < b.tod)

/-- The `PageView` model of `src/main/models.py`. -/
structure PageView where
  ip_address : String
  user_agent : String
  referer : String
  page_url : String
  country : String
  city : String
  region : String
  device_type : String
  browser : String
  operating_system : String
  ts : Timestamp
  session_id : String
deriving DecidableEq

/-- The `ContactFormSettings` model of `src/main/models.py` (configuration
fields; the timestamps play no role in the verified behaviour). -/
structure ContactFormSettings where
  email_notifications : Bool
  notification_email : String
  auto_reply_enabled : Bool
  auto_reply_subject : String
  auto_reply_message : String
  max_file_size_mb : Nat
  allowed_file_types : String
deriving DecidableEq

/-- The `SiteStatistics` model of `src/main/models.py`: one row of derived
daily statistics, keyed by `date`. -/
structure StatsRow where
  date : Nat
  total_views : Nat
  unique_visitors : Nat
  contact_submissions : Nat
  top_country_1 : String
  top_country_1_count : Nat
  top_country_2 : String
  top_country_2_count : Nat
  top_country_3 : String
  top_country_3_count : Nat
  desktop_views : Nat
  mobile_views : Nat
  tablet_views : Nat
deriving DecidableEq

/-- A fresh `SiteStatistics` row as `get_or_create(date=date)` would build
it: every derived field at its model default. -/
def defaultStatsRow (d : Nat) : StatsRow :=
  ⟨d, 0, 0, 0, "", 0, "", 0, "", 0, 0, 0, 0⟩

/-- The persistent store relevant to the statistics code: the `PageView`
table, the `Contact` table and the `SiteStatistics` table. -/
structure AnalyticsDB where
  pageViews : List PageView
  contacts : List Contact
  stats : List StatsRow
deriving DecidableEq

/-! ## Contact form intake (`handle_contact_form` in `src/main/views.py`) -/

/-- Embedding of `re.match(r'^[^\s@]+@[^\s@]+\.[^\s@]+$', email)`: the
string splits at a single `@` into a non-empty whitespace-free local part
and a domain part that carries some `.` with at least one character on each
side (all characters free of whitespace and `@`). -/
def matches_email_regex (s : String) : Bool :=
  match pySplit '@' s with
  | [a, b] =>
    a != "" &&
    a.data.all (fun c => !c.isWhitespace) &&
    b.data.all (fun c => !c.isWhitespace) &&
    ((b.data.drop 1).dropLast.contains '.')
  | _ => false

/-- Error message for a missing required field. -/
def errRequired : String := "Todos os campos obrigatórios devem ser preenchidos"

/-- Error message for a malformed email address. -/
def errEmail : String := "Email inválido"

/-- Error message for a malformed WhatsApp number. -/
def errWhatsapp : String := "Número de WhatsApp inválido"

/-- Error message for an oversized attachment (mentions the configured
limit in MB). -/
def errFileSize (mb : Nat) : String :=
  "Arquivo muito grande. Máximo permitido: " ++ toString mb ++ "MB"

/-- The comma-separated extension allow-list, each entry stripped and
lower-cased, as computed by the view. -/
def allowedTypes (fs : ContactFormSettings) : List String :=
  (pySplit ',' fs.allowed_file_types).map (fun e => pyLower (pyStrip e))

/-- Error message for a disallowed attachment type (mentions the configured
allow-list). -/
def errFileType (fs : ContactFormSettings) : String :=
  "Tipo de arquivo não permitido. Tipos aceitos: " ++
    String.intercalate ", " (allowedTypes fs)

/-- Success message returned after a persisted submission. -/
def successMessage : String :=
  "Mensagem enviada com sucesso! Entraremos em contato em breve."

/-- Check 1 of the view: `not all([name, whatsapp, email,
project_description])` on the stripped fields. -/
def missingRequired (form : FormData) : Bool :=
  pyStrip form.name == "" || pyStrip form.whatsapp == "" ||
  pyStrip form.email == "" || pyStrip form.project_description == ""

/-- Check 3 of the view: the digits kept by `re.sub(r'\D', '', whatsapp)`
number between 10 and 11. -/
def whatsappLenOk (form : FormData) : Bool :=
  let n := ((pyStrip form.whatsapp).data.filter Char.isDigit).length
  decide (10 ≤ n) && decide (n ≤ 11)

/-- Size half of check 4: `attachment.size > max_file_size_mb * 1024 * 1024`
does not hold. -/
def sizeWithinLimit (att : UploadedFile) (fs : ContactFormSettings) : Bool :=
  decide (att.size ≤ fs.max_file_size_mb * 1024 * 1024)

/-- The extension the view computes: `attachment.name.split('.')[-1].lower()`. -/
def fileExtension (att : UploadedFile) : String :=
  pyLower ((pySplit '.' att.name).getLastD "")

/-- Type half of check 4: the computed extension occurs in the allow-list. -/
def extensionAllowed (att : UploadedFile) (fs : ContactFormSettings) : Bool :=
  (allowedTypes fs).contains (fileExtension att)

/-- All validation checks of `handle_contact_form` in one predicate. -/
def validSubmission (form : FormData) (fs : ContactFormSettings) : Bool :=
  !missingRequired form &&
  matches_email_regex (pyStrip form.email) &&
  whatsappLenOk form &&
  (match form.attachment with
   | none => true
   | some att => sizeWithinLimit att fs && extensionAllowed att fs)

/-- The `Contact` row `Contact.objects.create(...)` builds from the
stripped form fields (`created_at` becomes the current day `now`). -/
def mkContact (now : Nat) (form : FormData) : Contact :=
  { name := pyStrip form.name
    whatsapp := pyStrip form.whatsapp
    email := pyStrip form.email
    project_description := pyStrip form.project_description
    attachment := form.attachment
    created_day := now
    is_read := false
    notes := "" }

/-- The value returned to the HTTP layer: either the success message or a
validation error message. -/
inductive FormResponse where
  | success (message : String) : FormResponse
  | failure (error : String) : FormResponse
deriving DecidableEq

/-- One observable side effect of the submission pipeline, in program
order.  The `delivered` flag on the email effects records whether the
attempted send raised inside its `try/except` block. -/
inductive Effect where
  | persistContact (c : Contact) : Effect
  | sendAdminEmail (delivered : Bool) : Effect
  | sendAutoReply (delivered : Bool) : Effect
deriving DecidableEq

/-- Result of `handle_contact_form`: the HTTP-level response, the resulting
`Contact` table and the ordered effect trace. -/
structure SubmitResult where
  response : FormResponse
  contacts : List Contact
  effects : List Effect
deriving DecidableEq

/-- Lines 180-243 of `src/main/views.py`: persist the contact, then send
the admin notification if enabled and configured, then the auto-reply if
enabled.  Both sends sit in `try/except` blocks, so a failing send (the
`adminEmailFails` / `autoReplyFails` inputs) is recorded but changes
nothing else. -/
def persistAndNotify (now : Nat) (form : FormData) (fs : ContactFormSettings)
    (adminEmailFails autoReplyFails : Bool) (db : List Contact) : SubmitResult :=
  let contact := mkContact now form
  let adminEffects :=
    if fs.email_notifications && fs.notification_email != "" then
      [Effect.sendAdminEmail (!adminEmailFails)]
    else []
  let replyEffects :=
    if fs.auto_reply_enabled then [Effect.sendAutoReply (!autoReplyFails)] else []
  ⟨FormResponse.success successMessage, db ++ [contact],
    Effect.persistContact contact :: (adminEffects ++ replyEffects)⟩

/-- `handle_contact_form` of `src/main/views.py` (lines 127-253): the
fail-fast validation chain followed by persistence and notification. -/
def handle_contact_form (now : Nat) (form : FormData) (fs : ContactFormSettings)
    (adminEmailFails autoReplyFails : Bool) (db : List Contact) : SubmitResult :=
  if missingRequired form then
    ⟨FormResponse.failure errRequired, db, []⟩
  else if !matches_email_regex (pyStrip form.email) then
    ⟨FormResponse.failure errEmail, db, []⟩
  else if !whatsappLenOk form then
    ⟨FormResponse.failure errWhatsapp, db, []⟩
  else
    match form.attachment with
    | some attachment =>
      if !sizeWithinLimit attachment fs then
        ⟨FormResponse.failure (errFileSize fs.max_file_size_mb), db, []⟩
      else if !extensionAllowed attachment fs then
        ⟨FormResponse.failure (errFileType fs), db, []⟩
      else persistAndNotify now form fs adminEmailFails autoReplyFails db
    | none => persistAndNotify now form fs adminEmailFails autoReplyFails db

/-- Recognizes the persistence effect. -/
def isPersistEffect : Effect → Bool
  | .persistContact _ => true
  | _ => false

/-- Recognizes the admin notification effect. -/
def isAdminEmailEffect : Effect → Bool
  | .sendAdminEmail _ => true
  | _ => false

/-- Recognizes the auto-reply effect. -/
def isAutoReplyEffect : Effect → Bool
  | .sendAutoReply _ => true
  | _ => false

/-! ## Geolocation and page-view tracking (`src/main/views.py` lines 31-98) -/

/-- The result of `user_agents.parse(user_agent_string)`: the flags and
labels `get_device_info` reads off the parsed object. -/
structure ParsedUA where
  is_mobile : Bool
  is_tablet : Bool
  is_pc : Bool
  browser_family : String
  browser_version : String
  os_family : String
  os_version : String
deriving DecidableEq

/-- Return value of `get_device_info`. -/
structure DeviceInfo where
  device_type : String
  browser : String
  operating_system : String
deriving DecidableEq

/-- `get_device_info` of `src/main/views.py`. -/
def get_device_info (ua : ParsedUA) : DeviceInfo :=
  { device_type :=
      if ua.is_mobile then "mobile"
      else if ua.is_tablet then "tablet"
      else if ua.is_pc then "desktop"
      else "unknown"
    browser := ua.browser_family ++ " " ++ ua.browser_version
    operating_system := ua.os_family ++ " " ++ ua.os_version }

/-- The JSON object a successful `response.json()` yields.  `status` is
`none` when the key is absent (then `data['status']` raises `KeyError`);
the other fields are read with `data.get(..., '')`. -/
structure GeoPayload where
  status : Option String
  country : Option String
  city : Option String
  regionName : Option String
deriving DecidableEq

/-- Outcome of the external call `requests.get('http://ip-api.com/json/...')`:
the request itself may raise (timeout, connection error), `response.json()`
may raise on a malformed body, or a status code plus payload comes back. -/
inductive GeoOutcome where
  | requestError : GeoOutcome
  | jsonError (status_code : Nat) : GeoOutcome
  | ok (status_code : Nat) (payload : GeoPayload) : GeoOutcome
deriving DecidableEq

/-- Return value of `get_location_info`. -/
structure LocationInfo where
  country : String
  city : String
  region : String
deriving DecidableEq

/-- `get_location_info` of `src/main/views.py`: any exception is swallowed
by the bare `except`, any non-200 code or non-`success` status falls
through, and all of those return empty strings. -/
def get_location_info (o : GeoOutcome) : LocationInfo :=
  match o with
  | .requestError => ⟨"", "", ""⟩
  | .jsonError _ => ⟨"", "", ""⟩
  | .ok code payload =>
    if code == 200 then
      match payload.status with
      | none => ⟨"", "", ""⟩
      | some st =>
        if st == "success" then
          ⟨payload.country.getD "", payload.city.getD "", payload.regionName.getD ""⟩
        else ⟨"", "", ""⟩
    else ⟨"", "", ""⟩

/-- Every outcome of the lookup the spec calls a failure: timeout or
connection error, malformed payload, non-200 code, or a payload whose
`status` field is missing or differs from `"success"`. -/
def geoLookupFailed (o : GeoOutcome) : Bool :=
  match o with
  | .requestError => true
  | .jsonError _ => true
  | .ok code payload =>
    !(code == 200) ||
    (match payload.status with
     | none => true
     | some st => !(st == "success"))

/-- `track_page_view` of `src/main/views.py`: build the `PageView` row from
the request data, the parsed user agent and the geolocation result, and
append it to the table.  Returns the new table and the created row. -/
def track_page_view (ip_address user_agent : String) (ua : ParsedUA)
    (geo : GeoOutcome) (referer page_url session_key : String)
    (ts : Timestamp) (db : List PageView) : List PageView × PageView :=
  let device_info := get_device_info ua
  let location_info := get_location_info geo
  let page_view : PageView :=
    { ip_address := ip_address
      user_agent := user_agent
      referer := referer
      page_url := page_url
      country := location_info.country
      city := location_info.city
      region := location_info.region
      device_type := device_info.device_type
      browser := device_info.browser
      operating_system := device_info.operating_system
      ts := ts
      session_id := session_key }
  (db ++ [page_view], page_view)

/-! ## The settings singleton (`ContactFormSettings.save`, models.py 158-162) -/

/-- `ContactFormSettings.save`: a model instance without primary key while
the table is non-empty raises `ValueError('Apenas uma configuração pode
existir')`; otherwise Django inserts (no pk) or updates/inserts by pk. -/
def contactFormSettings_save (pk : Option Nat) (row : ContactFormSettings)
    (table : List (Nat × ContactFormSettings)) :
    Except String (List (Nat × ContactFormSettings)) :=
  if pk = none ∧ table ≠ [] then
    Except.error "Apenas uma configuração pode existir"
  else
    match pk with
    | none => Except.ok (table ++ [(table.length + 1, row)])
    | some k =>
      if table.any (fun q => q.1 == k) then
        Except.ok (table.map (fun q => if q.1 == k then (k, row) else q))
      else Except.ok (table ++ [(k, row)])

/-! ## Aggregation (`SiteStatistics.update_daily_stats`, `api_stats`,
`dashboard.views.analytics`) -/

/-- The distinct values of a list in first-appearance order: the embedding
of SQL `DISTINCT` / `GROUP BY` key enumeration used by the querysets. -/
def distinctVals : List String → List String
  | [] => []
  | c :: rest => c :: (distinctVals rest).filter (fun x => x ≠ c)

/-- Embedding of `.values('country').annotate(count=Count('country'))`:
each distinct value paired with its multiplicity, keys in first-appearance
order. -/
def countryCounts (cs : List String) : List (String × Nat) :=
  (distinctVals cs).map (fun c => (c, cs.count c))

/-- Insertion step of the stable descending-by-count sort: keep walking
while the resident count is strictly larger, so an inserted group lands
before the groups that tie with it. -/
def insertDesc (x : String × Nat) : List (String × Nat) → List (String × Nat)
  | [] => [x]
  | y :: ys => if x.2 < y.2 then y :: insertDesc x ys else x :: y :: ys

/-- Stable sort by count, descending: the embedding of
`.order_by('-count')` on the annotated groups. -/
def sortDesc : List (String × Nat) → List (String × Nat)
  | [] => []
  | x :: xs => insertDesc x (sortDesc xs)

/-- The `topCountries` aggregation (`api_stats` lines 297-299 and
`analytics` lines 410-412): group the non-empty countries, count, sort
descending by count, take the first `limit` groups. -/
def top_countries (pvs : List PageView) (limit : Nat) : List (String × Nat) :=
  (sortDesc (countryCounts ((pvs.map (fun p => p.country)).filter (fun c => c != "")))).take limit

/-- The `setattr` loop of `update_daily_stats` (models.py lines 229-231):
write `top_country_i` / `top_country_i_count` for the at most three groups
present, leaving the remaining fields untouched. -/
def applyTopCountries (row : StatsRow) : List (String × Nat) → StatsRow
  | [] => row
  | [a] => { row with top_country_1 := a.1, top_country_1_count := a.2 }
  | [a, b] =>
    { row with top_country_1 := a.1, top_country_1_count := a.2,
               top_country_2 := b.1, top_country_2_count := b.2 }
  | a :: b :: c :: _ =>
    { row with top_country_1 := a.1, top_country_1_count := a.2,
               top_country_2 := b.1, top_country_2_count := b.2,
               top_country_3 := c.1, top_country_3_count := c.2 }

/-- `stats.save()` under the unique `date` key: replace the row(s) with
this date, or append when the date is new. -/
def saveStatsRow (r : StatsRow) (rows : List StatsRow) : List StatsRow :=
  if rows.any (fun q => q.date == r.date) then
    rows.map (fun q => if q.date == r.date then r else q)
  else rows ++ [r]

/-- `SiteStatistics.update_daily_stats` (models.py lines 202-234):
get-or-create the row for the date, overwrite the computed fields from the
day's `PageView` and `Contact` rows, write the top-3 countries, save. -/
def update_daily_stats (d : Nat) (db : AnalyticsDB) : AnalyticsDB × StatsRow :=
  let stats0 := (db.stats.find? (fun q => q.date == d)).getD (defaultStatsRow d)
  let daily_views := db.pageViews.filter (fun p => p.ts.day == d)
  let base :=
    { stats0 with
      total_views := daily_views.length
      unique_visitors := (distinctVals (daily_views.map (fun p => p.ip_address))).length
      contact_submissions := (db.contacts.filter (fun c => c.created_day == d)).length
      desktop_views := (daily_views.filter (fun p => p.device_type == "desktop")).length
      mobile_views := (daily_views.filter (fun p => p.device_type == "mobile")).length
      tablet_views := (daily_views.filter (fun p => p.device_type == "tablet")).length }
  let row := applyTopCountries base
    ((sortDesc (countryCounts ((daily_views.map (fun p => p.country)).filter (fun c => c != "")))).take 3)
  (⟨db.pageViews, db.contacts, saveStatsRow row db.stats⟩, row)

/-- The spec's derived notion of a unique visitor, stated verbatim for
comparison: an IP counts as unique on day `d` only when `d` carries the
IP's first-ever recorded event, so the day's count is the number of
distinct IPs seen on `d` that have no event on any earlier day. -/
def specFirstEverUniqueCount (views : List PageView) (d : Nat) : Nat :=
  ((distinctVals ((views.filter (fun p => p.ts.day == d)).map (fun p => p.ip_address))).filter
    (fun ip => !(views.any (fun q => q.ip_address == ip && q.ts.day < d)))).length

/-- `PageView.is_unique_visitor` (models.py lines 102-108): no earlier
event from the same IP exists in the whole table. -/
def is_unique_visitor (pv : PageView) (table : List PageView) : Bool :=
  !(table.any (fun q => q.ip_address == pv.ip_address && q.ts.isBefore pv.ts))

/-- One line of the `daily_stats` series built by `analytics`
(`src/dashboard/views.py` lines 424-439). -/
structure DailyEntry where
  date : Nat
  views : Nat
  visitors : Nat
  contacts : Nat
deriving DecidableEq

/-- The `dailyBreakdown` loop of `analytics` (dashboard/views.py lines
424-439): restrict both tables to the inclusive range, then walk
`current_date` from `start_date` to `end_date`, emitting per-day view,
distinct-IP and contact counts. -/
def analytics_daily_stats (pvs : List PageView) (cts : List Contact)
    (start_date end_date : Nat) : List DailyEntry :=
  let page_views := pvs.filter (fun p => decide (start_date ≤ p.ts.day) && decide (p.ts.day ≤ end_date))
  let contacts := cts.filter (fun c => decide (start_date ≤ c.created_day) && decide (c.created_day ≤ end_date))
  (List.range' start_date (end_date + 1 - start_date)).map (fun d =>
    ⟨d,
      (page_views.filter (fun p => p.ts.day == d)).length,
      (distinctVals ((page_views.filter (fun p => p.ts.day == d)).map (fun p => p.ip_address))).length,
      (contacts.filter (fun c => c.created_day == d)).length⟩)

/-! ## Concrete fixtures used by witnesses and counterexamples -/

/-- The model-default settings (`ContactFormSettings` field defaults):
10 MB limit, allow-list `pdf,doc,docx,txt`.  The auto-reply template body
is irrelevant to every verified property and is abbreviated here. -/
def defaultSettings : ContactFormSettings :=
  { email_notifications := true
    notification_email := "admin@example.com"
    auto_reply_enabled := true
    auto_reply_subject := "Obrigado pelo seu contato!"
    auto_reply_message := "Olá, obrigado pelo seu contato."
    max_file_size_mb := 10
    allowed_file_types := "pdf,doc,docx,txt" }

/-- A submission passing every validation check. -/
def exValidForm : FormData :=
  ⟨"Ana Silva", "(11) 91234-5678", "ana@example.com", "Quero um site novo", none⟩

/-- The valid submission carrying an 11 MB attachment. -/
def exOversizeForm : FormData :=
  { exValidForm with attachment := some ⟨"relatorio.pdf", 11 * 1024 * 1024⟩ }

/-- The valid submission carrying a small `evil.exe` attachment. -/
def exEvilExeForm : FormData :=
  { exValidForm with attachment := some ⟨"evil.exe", 1024⟩ }

/-- A submission with every field empty. -/
def exEmptyForm : FormData := ⟨"", "", "", "", none⟩

/-- A page view from the given country (all other fields fixed). -/
def exPV (c : String) : PageView :=
  ⟨"1.1.1.1", "", "", "/", c, "", "", "unknown", "", "", ⟨0, 0⟩, ""⟩

/-- The spec's `topCountries` example event multiset BR, BR, US, BR, US. -/
def examplePVs : List PageView :=
  [exPV "BR", exPV "BR", exPV "US", exPV "BR", exPV "US"]

/-- A page view of a fixed IP on the given day. -/
def exRepeatVisit (day : Nat) : PageView :=
  ⟨"9.9.9.9", "", "", "/", "", "", "", "unknown", "", "", ⟨day, 0⟩, ""⟩

/-- A store in which the same IP visits on day 0 and again on day 1. -/
def exRepeatDB : AnalyticsDB :=
  ⟨[exRepeatVisit 0, exRepeatVisit 1], [], []⟩

/-! ## Helper lemmas: distinguishing the user-facing messages -/

/-- Two strings differing in their first character differ. -/
theorem string_ne_of_head {s t : String} {a b : Char}
    (ha : s.data.head? = some a) (hb : t.data.head? = some b) (hab : a ≠ b) :
    s ≠ t := by
  intro h
  apply hab
  subst h
  rw [ha] at hb
  exact Option.some.inj hb

/-- Two strings differing in their second character differ. -/
theorem string_ne_of_second {s t : String} {a b : Char}
    (ha : (s.data.drop 1).head? = some a) (hb : (t.data.drop 1).head? = some b)
    (hab : a ≠ b) : s ≠ t := by
  intro h
  apply hab
  subst h
  rw [ha] at hb
  exact Option.some.inj hb

/-- The required-fields message differs from the size message. -/
theorem errRequired_ne_errFileSize (mb : Nat) : errRequired ≠ errFileSize mb :=
  string_ne_of_head (s := errRequired) (t := errFileSize mb) rfl rfl (by decide)

/-- The required-fields message differs from the type message. -/
theorem errRequired_ne_errFileType (fs : ContactFormSettings) :
    errRequired ≠ errFileType fs :=
  string_ne_of_second (s := errRequired) (t := errFileType fs) rfl rfl (by decide)

/-- The email message differs from the size message. -/
theorem errEmail_ne_errFileSize (mb : Nat) : errEmail ≠ errFileSize mb :=
  string_ne_of_head (s := errEmail) (t := errFileSize mb) rfl rfl (by decide)

/-- The email message differs from the type message. -/
theorem errEmail_ne_errFileType (fs : ContactFormSettings) :
    errEmail ≠ errFileType fs :=
  string_ne_of_head (s := errEmail) (t := errFileType fs) rfl rfl (by decide)

/-- The WhatsApp message differs from the size message. -/
theorem errWhatsapp_ne_errFileSize (mb : Nat) : errWhatsapp ≠ errFileSize mb :=
  string_ne_of_head (s := errWhatsapp) (t := errFileSize mb) rfl rfl (by decide)

/-- The WhatsApp message differs from the type message. -/
theorem errWhatsapp_ne_errFileType (fs : ContactFormSettings) :
    errWhatsapp ≠ errFileType fs :=
  string_ne_of_head (s := errWhatsapp) (t := errFileType fs) rfl rfl (by decide)

/-- The size message differs from the type message. -/
theorem errFileSize_ne_errFileType (mb : Nat) (fs : ContactFormSettings) :
    errFileSize mb ≠ errFileType fs :=
  string_ne_of_head (s := errFileSize mb) (t := errFileType fs) rfl rfl (by decide)

/-! ## Helper lemmas: the statistics machinery -/

/-- `applyTopCountries` only writes the six top-country fields. -/
theorem applyTopCountries_preserve (r : StatsRow) (l : List (String × Nat)) :
    (applyTopCountries r l).date = r.date ∧
    (applyTopCountries r l).total_views = r.total_views ∧
    (applyTopCountries r l).unique_visitors = r.unique_visitors ∧
    (applyTopCountries r l).contact_submissions = r.contact_submissions ∧
    (applyTopCountries r l).desktop_views = r.desktop_views ∧
    (applyTopCountries r l).mobile_views = r.mobile_views ∧
    (applyTopCountries r l).tablet_views = r.tablet_views := by
  rcases l with _ | ⟨a, _ | ⟨b, _ | ⟨c, rest⟩⟩⟩ <;> simp [applyTopCountries]

/-- Writing the same top-country fields twice is the same as once. -/
theorem applyTopCountries_idem (r : StatsRow) (l : List (String × Nat)) :
    applyTopCountries (applyTopCountries r l) l = applyTopCountries r l := by
  rcases l with _ | ⟨a, _ | ⟨b, _ | ⟨c, rest⟩⟩⟩ <;> rfl

/-- Overwriting the computed fields of a row with their current values is
the identity. -/
theorem statsRow_overwrite_eq (r : StatsRow) (tv uv cs dv mv tb : Nat)
    (h1 : r.total_views = tv) (h2 : r.unique_visitors = uv)
    (h3 : r.contact_submissions = cs) (h4 : r.desktop_views = dv)
    (h5 : r.mobile_views = mv) (h6 : r.tablet_views = tb) :
    ({ r with total_views := tv, unique_visitors := uv, contact_submissions := cs,
              desktop_views := dv, mobile_views := mv, tablet_views := tb } : StatsRow) = r := by
  cases r
  simp_all

/-- The saved row is a member of the saved table. -/
theorem mem_saveStatsRow (r : StatsRow) (rows : List StatsRow) :
    r ∈ saveStatsRow r rows := by
  unfold saveStatsRow
  split
  · next hany =>
    rcases List.any_eq_true.mp hany with ⟨q, hq, hdq⟩
    exact List.mem_map.mpr ⟨q, hq, by simp [hdq]⟩
  · exact List.mem_append_right _ (List.mem_singleton.mpr rfl)

/-- After a save, every row carrying the saved date is the saved row. -/
theorem saveStatsRow_all_eq (r : StatsRow) (rows : List StatsRow) :
    ∀ x ∈ saveStatsRow r rows, x.date = r.date → x = r := by
  unfold saveStatsRow
  split
  · intro x hx hdx
    rcases List.mem_map.mp hx with ⟨q, hq, hqx⟩
    by_cases hqd : (q.date == r.date) = true
    · simpa [hqd] using hqx.symm
    · rw [if_neg (by simp [hqd])] at hqx
      subst hqx
      exact absurd (by simp [hdx]) hqd
  · next hany =>
    intro x hx hdx
    rcases List.mem_append.mp hx with hx | hx
    · exact absurd (List.any_eq_true.mpr ⟨x, hx, by simp [hdx]⟩) hany
    · simpa using hx

/-- Replacing the rows of a date by `r` is the identity when every row of
that date already equals `r`. -/
theorem map_replace_id (r : StatsRow) (rows : List StatsRow)
    (h : ∀ x ∈ rows, x.date = r.date → x = r) :
    rows.map (fun q => if q.date == r.date then r else q) = rows := by
  induction rows with
  | nil => rfl
  | cons q rest ih =>
    have hq : (if q.date == r.date then r else q) = q := by
      by_cases hqd : (q.date == r.date) = true
      · simpa [hqd] using (h q (by simp) (by simpa using hqd)).symm
      · simp [hqd]
    simp only [List.map_cons, hq]
    rw [ih (fun x hx => h x (List.mem_cons_of_mem _ hx))]

/-- `saveStatsRow` in the branch where the date is already present. -/
theorem saveStatsRow_of_any (r : StatsRow) (rows : List StatsRow)
    (hany : rows.any (fun q => q.date == r.date) = true) :
    saveStatsRow r rows = rows.map (fun q => if q.date == r.date then r else q) := by
  unfold saveStatsRow
  rw [if_pos hany]

/-- Saving the same row twice is the same as saving it once. -/
theorem saveStatsRow_idem (r : StatsRow) (rows : List StatsRow) :
    saveStatsRow r (saveStatsRow r rows) = saveStatsRow r rows := by
  have hany : (saveStatsRow r rows).any (fun q => q.date == r.date) = true :=
    List.any_eq_true.mpr ⟨r, mem_saveStatsRow r rows, by simp⟩
  rw [saveStatsRow_of_any r (saveStatsRow r rows) hany,
    map_replace_id r _ (saveStatsRow_all_eq r rows)]

/-- Finding the saved date among the replaced rows yields the saved row. -/
theorem find?_map_replace (r : StatsRow) (rows : List StatsRow)
    (hany : rows.any (fun q => q.date == r.date) = true) :
    (rows.map (fun q => if q.date == r.date then r else q)).find?
      (fun q => q.date == r.date) = some r := by
  induction rows with
  | nil => simp at hany
  | cons q rest ih =>
    rw [List.map_cons]
    by_cases hqd : (q.date == r.date) = true
    · rw [if_pos hqd]
      exact List.find?_cons_of_pos _ (by simp)
    · rw [if_neg hqd, List.find?_cons_of_neg _ (by simpa using hqd)]
      apply ih
      rcases List.any_eq_true.mp hany with ⟨x, hx, hdx⟩
      rcases List.mem_cons.mp hx with hx | hx
      · exact absurd (hx ▸ hdx) (by simpa using hqd)
      · exact List.any_eq_true.mpr ⟨x, hx, hdx⟩

/-- Finding the saved date after appending the fresh row yields it. -/
theorem find?_append_fresh (r : StatsRow) (rows : List StatsRow)
    (hall : ∀ x ∈ rows, (x.date == r.date) = false) :
    (rows ++ [r]).find? (fun q => q.date == r.date) = some r := by
  induction rows with
  | nil => simp
  | cons q rest ih =>
    rw [List.cons_append,
      List.find?_cons_of_neg _ (by simpa using hall q (by simp))]
    exact ih (fun x hx => hall x (List.mem_cons_of_mem _ hx))

/-- Finding by the saved date after a save yields the saved row. -/
theorem find?_saveStatsRow (r : StatsRow) (rows : List StatsRow) :
    (saveStatsRow r rows).find? (fun q => q.date == r.date) = some r := by
  unfold saveStatsRow
  split
  · next hany => exact find?_map_replace r rows hany
  · next hany =>
    apply find?_append_fresh
    intro x hx
    by_contra hc
    exact hany (List.any_eq_true.mpr ⟨x, hx, by simpa using hc⟩)

/-! ## Helper lemmas: the stable descending sort and grouping -/

/-- Membership in an insertion step. -/
theorem mem_insertDesc (x y : String × Nat) (l : List (String × Nat)) :
    y ∈ insertDesc x l ↔ y = x ∨ y ∈ l := by
  induction l with
  | nil => simp [insertDesc]
  | cons z zs ih =>
    unfold insertDesc
    split
    · simp only [List.mem_cons, ih]
      tauto
    · simp only [List.mem_cons]

/-- Membership in the sorted list. -/
theorem mem_sortDesc (y : String × Nat) (l : List (String × Nat)) :
    y ∈ sortDesc l ↔ y ∈ l := by
  induction l with
  | nil => simp [sortDesc]
  | cons z zs ih => simp [sortDesc, mem_insertDesc, ih]

/-- An insertion step adds one element. -/
theorem length_insertDesc (x : String × Nat) (l : List (String × Nat)) :
    (insertDesc x l).length = l.length + 1 := by
  induction l with
  | nil => rfl
  | cons z zs ih =>
    unfold insertDesc
    split
    · simp [ih]
    · simp

/-- Sorting preserves the length. -/
theorem length_sortDesc (l : List (String × Nat)) :
    (sortDesc l).length = l.length := by
  induction l with
  | nil => rfl
  | cons z zs ih => simp [sortDesc, length_insertDesc, ih]

/-- An insertion step preserves descending order by count. -/
theorem pairwise_insertDesc (x : String × Nat) (l : List (String × Nat))
    (h : l.Pairwise (fun a b => b.2 ≤ a.2)) :
    (insertDesc x l).Pairwise (fun a b => b.2 ≤ a.2) := by
  induction l with
  | nil => simp [insertDesc]
  | cons z zs ih =>
    rcases List.pairwise_cons.mp h with ⟨hz, hzs⟩
    unfold insertDesc
    split
    · next hlt =>
      refine List.pairwise_cons.mpr ⟨?_, ih hzs⟩
      intro y hy
      rcases (mem_insertDesc x y zs).mp hy with rfl | hy
      · exact Nat.le_of_lt hlt
      · exact hz y hy
    · next hge =>
      refine List.pairwise_cons.mpr ⟨?_, h⟩
      intro y hy
      rcases List.mem_cons.mp hy with rfl | hy
      · exact Nat.le_of_not_lt hge
      · exact Nat.le_trans (hz y hy) (Nat.le_of_not_lt hge)

/-- The sort output is descending by count. -/
theorem pairwise_sortDesc (l : List (String × Nat)) :
    (sortDesc l).Pairwise (fun a b => b.2 ≤ a.2) := by
  induction l with
  | nil => simp [sortDesc]
  | cons z zs ih => exact pairwise_insertDesc z (sortDesc zs) ih

/-- Stability of one insertion step, phrased on the tie groups: the
elements of any fixed count are the old ones, with the inserted element
appended in front exactly when it carries that count. -/
theorem filter_insertDesc (x : String × Nat) (l : List (String × Nat)) (k : Nat) :
    (insertDesc x l).filter (fun p => p.2 == k) =
      if x.2 = k then x :: l.filter (fun p => p.2 == k)
      else l.filter (fun p => p.2 == k) := by
  induction l with
  | nil =>
    by_cases hx : x.2 = k <;> simp [insertDesc, hx]
  | cons z zs ih =>
    unfold insertDesc
    split
    · next hlt =>
      by_cases hz : z.2 = k
      · have hx : ¬ x.2 = k := by omega
        simp [List.filter_cons, hz, hx, ih]
      · simp [List.filter_cons, hz, ih]
    · next hge =>
      by_cases hx : x.2 = k <;> simp [List.filter_cons, hx]

/-- Stability of the sort: within any tie group the original order is
kept, because the filtered-by-count subsequence is unchanged. -/
theorem filter_sortDesc (l : List (String × Nat)) (k : Nat) :
    (sortDesc l).filter (fun p => p.2 == k) = l.filter (fun p => p.2 == k) := by
  induction l with
  | nil => rfl
  | cons z zs ih =>
    show (insertDesc z (sortDesc zs)).filter (fun p => p.2 == k) = _
    rw [filter_insertDesc, ih]
    by_cases hz : z.2 = k <;> simp [List.filter_cons, hz]

/-- The distinct values are values of the list. -/
theorem mem_distinctVals (x : String) (l : List String) :
    x ∈ distinctVals l ↔ x ∈ l := by
  induction l with
  | nil => simp [distinctVals]
  | cons c rest ih =>
    unfold distinctVals
    constructor
    · intro hx
      rcases List.mem_cons.mp hx with rfl | hx
      · simp
      · exact List.mem_cons_of_mem _ (ih.mp (List.mem_of_mem_filter hx))
    · intro hx
      rcases List.mem_cons.mp hx with rfl | hx
      · simp
      · by_cases hxc : x = c
        · simp [hxc]
        · exact List.mem_cons_of_mem _
            (List.mem_filter.mpr ⟨ih.mpr hx, by simpa using hxc⟩)

/-! ## Claim theorems -/

/-- C5: once one `ContactFormSettings` instance is persisted, saving a
fresh instance (no primary key) raises the `ValueError` instead of
producing a second row. -/
theorem settings_second_instance_rejected (row : ContactFormSettings)
    (table : List (Nat × ContactFormSettings)) (h : table ≠ []) :
    contactFormSettings_save none row table
      = Except.error "Apenas uma configuração pode existir" := by
  unfold contactFormSettings_save
  rw [if_pos ⟨rfl, h⟩]

/-- Witness for C5: with the default settings row persisted, a second
fresh save errors. -/
theorem settings_second_instance_rejected_witness :
    ([(1, defaultSettings)] : List (Nat × ContactFormSettings)) ≠ [] ∧
    contactFormSettings_save none defaultSettings [(1, defaultSettings)]
      = Except.error "Apenas uma configuração pode existir" :=
  ⟨by decide,
   settings_second_instance_rejected defaultSettings [(1, defaultSettings)] (by decide)⟩

/-- C4: on every failing geolocation outcome (request error, malformed
payload, non-200 code, missing or non-success status) the lookup returns
empty strings without raising, and page-view tracking still appends one
`PageView` whose country, city and region are empty. -/
theorem geo_failure_yields_empty_event
    (o : GeoOutcome) (hfail : geoLookupFailed o = true)
    (ip uaStr referer page_url session : String) (ua : ParsedUA)
    (ts : Timestamp) (db : List PageView) :
    get_location_info o = ⟨"", "", ""⟩ ∧
    (track_page_view ip uaStr ua o referer page_url session ts db).1
      = db ++ [(track_page_view ip uaStr ua o referer page_url session ts db).2] ∧
    (track_page_view ip uaStr ua o referer page_url session ts db).1.length
      = db.length + 1 ∧
    (track_page_view ip uaStr ua o referer page_url session ts db).2.country = "" ∧
    (track_page_view ip uaStr ua o referer page_url session ts db).2.city = "" ∧
    (track_page_view ip uaStr ua o referer page_url session ts db).2.region = "" := by
  have hloc : get_location_info o = ⟨"", "", ""⟩ := by
    cases o with
    | requestError => rfl
    | jsonError code => rfl
    | ok code payload =>
      simp only [get_location_info]
      simp only [geoLookupFailed] at hfail
      by_cases hc : (code == 200) = true
      · rw [if_pos hc]
        cases hst : payload.status with
        | none => rfl
        | some st =>
          rw [hst] at hfail
          simp_all
      · rw [if_neg hc]
  refine ⟨hloc, ?_, ?_, ?_, ?_, ?_⟩ <;>
    simp [track_page_view, hloc]

/-- Witness for C4: a 200 response whose status field is not `success`. -/
theorem geo_failure_yields_empty_event_witness :
    geoLookupFailed (GeoOutcome.ok 200 ⟨some "fail", some "Brazil", none, none⟩) = true ∧
    get_location_info (GeoOutcome.ok 200 ⟨some "fail", some "Brazil", none, none⟩)
      = ⟨"", "", ""⟩ :=
  ⟨by decide,
   (geo_failure_yields_empty_event
      (GeoOutcome.ok 200 ⟨some "fail", some "Brazil", none, none⟩) (by decide)
      "1.2.3.4" "Mozilla" "" "/" "" ⟨false, false, true, "Chrome", "1", "Linux", "6"⟩
      ⟨0, 0⟩ []).1⟩

/-- C2: the contact-form checks run in the fixed order required fields,
email format, WhatsApp length, attachment size, attachment type; the first
violated check fixes the returned error, the five messages are pairwise
distinct, and an error response leaves the `Contact` table untouched with
no side effect attempted. -/
theorem contact_validation_order (now : Nat) (form : FormData)
    (fs : ContactFormSettings) (af ar : Bool) (db : List Contact) :
    (missingRequired form = true →
      handle_contact_form now form fs af ar db
        = ⟨FormResponse.failure errRequired, db, []⟩) ∧
    (missingRequired form = false →
      matches_email_regex (pyStrip form.email) = false →
      handle_contact_form now form fs af ar db
        = ⟨FormResponse.failure errEmail, db, []⟩) ∧
    (missingRequired form = false →
      matches_email_regex (pyStrip form.email) = true →
      whatsappLenOk form = false →
      handle_contact_form now form fs af ar db
        = ⟨FormResponse.failure errWhatsapp, db, []⟩) ∧
    (∀ att, form.attachment = some att →
      missingRequired form = false →
      matches_email_regex (pyStrip form.email) = true →
      whatsappLenOk form = true →
      sizeWithinLimit att fs = false →
      handle_contact_form now form fs af ar db
        = ⟨FormResponse.failure (errFileSize fs.max_file_size_mb), db, []⟩) ∧
    (∀ att, form.attachment = some att →
      missingRequired form = false →
      matches_email_regex (pyStrip form.email) = true →
      whatsappLenOk form = true →
      sizeWithinLimit att fs = true →
      extensionAllowed att fs = false →
      handle_contact_form now form fs af ar db
        = ⟨FormResponse.failure (errFileType fs), db, []⟩) ∧
    (errRequired ≠ errEmail ∧ errRequired ≠ errWhatsapp ∧
     errRequired ≠ errFileSize fs.max_file_size_mb ∧ errRequired ≠ errFileType fs ∧
     errEmail ≠ errWhatsapp ∧ errEmail ≠ errFileSize fs.max_file_size_mb ∧
     errEmail ≠ errFileType fs ∧ errWhatsapp ≠ errFileSize fs.max_file_size_mb ∧
     errWhatsapp ≠ errFileType fs ∧
     errFileSize fs.max_file_size_mb ≠ errFileType fs) ∧
    (∀ msg,
      (handle_contact_form now form fs af ar db).response = FormResponse.failure msg →
      (handle_contact_form now form fs af ar db).contacts = db ∧
      (handle_contact_form now form fs af ar db).effects = []) := by
  refine ⟨?_, ?_, ?_, ?_, ?_, ?_, ?_⟩
  · intro h1
    simp [handle_contact_form, h1]
  · intro h1 h2
    simp [handle_contact_form, h1, h2]
  · intro h1 h2 h3
    simp [handle_contact_form, h1, h2, h3]
  · intro att hatt h1 h2 h3 h4
    simp [handle_contact_form, h1, h2, h3, hatt, h4]
  · intro att hatt h1 h2 h3 h4 h5
    simp [handle_contact_form, h1, h2, h3, hatt, h4, h5]
  · exact ⟨by decide, by decide, errRequired_ne_errFileSize _,
      errRequired_ne_errFileType fs, by decide, errEmail_ne_errFileSize _,
      errEmail_ne_errFileType fs, errWhatsapp_ne_errFileSize _,
      errWhatsapp_ne_errFileType fs, errFileSize_ne_errFileType _ fs⟩
  · intro msg
    by_cases h1 : missingRequired form = true
    · intro _
      simp [handle_contact_form, h1]
    · rw [Bool.not_eq_true] at h1
      by_cases h2 : matches_email_regex (pyStrip form.email) = true
      · by_cases h3 : whatsappLenOk form = true
        · cases hatt : form.attachment with
          | none =>
            intro hresp
            simp [handle_contact_form, h1, h2, h3, hatt, persistAndNotify] at hresp
          | some att =>
            by_cases h4 : sizeWithinLimit att fs = true
            · by_cases h5 : extensionAllowed att fs = true
              · intro hresp
                simp [handle_contact_form, h1, h2, h3, hatt, h4, h5,
                  persistAndNotify] at hresp
              · rw [Bool.not_eq_true] at h5
                intro _
                simp [handle_contact_form, h1, h2, h3, hatt, h4, h5]
            · rw [Bool.not_eq_true] at h4
              intro _
              simp [handle_contact_form, h1, h2, h3, hatt, h4]
        · rw [Bool.not_eq_true] at h3
          intro _
          simp [handle_contact_form, h1, h2, h3]
      · rw [Bool.not_eq_true] at h2
        intro _
        simp [handle_contact_form, h1, h2]

/-- Witness for C2: the all-empty submission is rejected with the
required-fields message and nothing is persisted. -/
theorem contact_validation_order_witness :
    missingRequired exEmptyForm = true ∧
    handle_contact_form 0 exEmptyForm defaultSettings false false []
      = ⟨FormResponse.failure errRequired, [], []⟩ :=
  ⟨by decide,
   (contact_validation_order 0 exEmptyForm defaultSettings false false []).1 (by decide)⟩

/-- What the persistence-and-notification tail always produces: one
persisted contact heading the effect trace, then the enabled sends. -/
theorem persistAndNotify_spec (now : Nat) (form : FormData)
    (fs : ContactFormSettings) (af ar : Bool) (db : List Contact) :
    (persistAndNotify now form fs af ar db).response
      = FormResponse.success successMessage ∧
    (persistAndNotify now form fs af ar db).contacts = db ++ [mkContact now form] ∧
    (persistAndNotify now form fs af ar db).effects.countP isPersistEffect = 1 ∧
    (persistAndNotify now form fs af ar db).effects.head?
      = some (Effect.persistContact (mkContact now form)) ∧
    (persistAndNotify now form fs af ar db).effects.countP isAdminEmailEffect
      = (if fs.email_notifications && fs.notification_email != "" then 1 else 0) ∧
    (persistAndNotify now form fs af ar db).effects.countP isAutoReplyEffect
      = (if fs.auto_reply_enabled then 1 else 0) := by
  unfold persistAndNotify
  by_cases hA : (fs.email_notifications && fs.notification_email != "") = true <;>
    by_cases hR : fs.auto_reply_enabled = true <;>
      simp [hA, hR, isPersistEffect, isAdminEmailEffect, isAutoReplyEffect,
        List.countP_cons, List.countP_nil, List.countP_append]

/-- C3: a submission passing all checks persists exactly one contact,
the persistence effect precedes every notification attempt, each enabled
channel is attempted exactly once, and a failing send (`af`, `ar`) changes
neither the response nor the persisted table. -/
theorem contact_submission_pipeline (now : Nat) (form : FormData)
    (fs : ContactFormSettings) (af ar : Bool) (db : List Contact)
    (h : validSubmission form fs = true) :
    (handle_contact_form now form fs af ar db).response
      = FormResponse.success successMessage ∧
    (handle_contact_form now form fs af ar db).contacts
      = db ++ [mkContact now form] ∧
    (handle_contact_form now form fs af ar db).effects.countP isPersistEffect = 1 ∧
    (handle_contact_form now form fs af ar db).effects.head?
      = some (Effect.persistContact (mkContact now form)) ∧
    (handle_contact_form now form fs af ar db).effects.countP isAdminEmailEffect
      = (if fs.email_notifications && fs.notification_email != "" then 1 else 0) ∧
    (handle_contact_form now form fs af ar db).effects.countP isAutoReplyEffect
      = (if fs.auto_reply_enabled then 1 else 0) := by
  have hres : handle_contact_form now form fs af ar db
      = persistAndNotify now form fs af ar db := by
    simp only [validSubmission, Bool.and_eq_true, Bool.not_eq_true'] at h
    obtain ⟨⟨⟨hreq, hemail⟩, hwa⟩, hatt⟩ := h
    cases hattv : form.attachment with
    | none => simp [handle_contact_form, hreq, hemail, hwa, hattv]
    | some att =>
      rw [hattv] at hatt
      simp only [Bool.and_eq_true] at hatt
      simp [handle_contact_form, hreq, hemail, hwa, hattv, hatt.1, hatt.2]
  rw [hres]
  exact persistAndNotify_spec now form fs af ar db

/-- Witness for C3: the valid example submission is accepted and persisted
once into an empty table. -/
theorem contact_submission_pipeline_witness :
    validSubmission exValidForm defaultSettings = true ∧
    (handle_contact_form 7 exValidForm defaultSettings false false []).contacts
      = [mkContact 7 exValidForm] :=
  ⟨by decide, by
    have h2 :=
      (contact_submission_pipeline 7 exValidForm defaultSettings false false []
        (by decide)).2.1
    simpa using h2⟩

/-- Splitting at a character that does not occur returns the whole list. -/
theorem splitOnChar_no_sep (sep : Char) (l : List Char)
    (h : ∀ c ∈ l, c ≠ sep) : splitOnChar sep l = [l] := by
  induction l with
  | nil => rfl
  | cons c rest ih =>
    have hc : c ≠ sep := h c (by simp)
    unfold splitOnChar
    rw [ih (fun x hx => h x (List.mem_cons_of_mem _ hx))]
    simp [hc]

/-- C9: with an attachment present and the earlier checks passed, the size
error is returned exactly when the size exceeds the configured MB limit
times 1024 squared, and the type error exactly when the size fits but the
extension is outside the allow-list; with the defaults, an 11 MB file gets
the size error and `evil.exe` the type error. -/
theorem attachment_validation_rules (now : Nat) (form : FormData)
    (fs : ContactFormSettings) (af ar : Bool) (db : List Contact)
    (att : UploadedFile) (hatt : form.attachment = some att)
    (h1 : missingRequired form = false)
    (h2 : matches_email_regex (pyStrip form.email) = true)
    (h3 : whatsappLenOk form = true) :
    ((handle_contact_form now form fs af ar db).response
        = FormResponse.failure (errFileSize fs.max_file_size_mb)
      ↔ fs.max_file_size_mb * 1024 * 1024 < att.size) ∧
    ((handle_contact_form now form fs af ar db).response
        = FormResponse.failure (errFileType fs)
      ↔ (att.size ≤ fs.max_file_size_mb * 1024 * 1024 ∧
         extensionAllowed att fs = false)) ∧
    (handle_contact_form now exOversizeForm defaultSettings af ar db).response
      = FormResponse.failure (errFileSize 10) ∧
    (handle_contact_form now exEvilExeForm defaultSettings af ar db).response
      = FormResponse.failure (errFileType defaultSettings) := by
  have hov : (handle_contact_form now exOversizeForm defaultSettings af ar db).response
      = FormResponse.failure (errFileSize 10) := by
    have e1 : missingRequired exOversizeForm = false := by decide
    have e2 : matches_email_regex (pyStrip exOversizeForm.email) = true := by decide
    have e3 : whatsappLenOk exOversizeForm = true := by decide
    have e4 : sizeWithinLimit ⟨"relatorio.pdf", 11 * 1024 * 1024⟩ defaultSettings = false := by
      decide
    have e5 : exOversizeForm.attachment = some ⟨"relatorio.pdf", 11 * 1024 * 1024⟩ := rfl
    simp +decide [handle_contact_form, e1, e2, e3, e5]
  have hev : (handle_contact_form now exEvilExeForm defaultSettings af ar db).response
      = FormResponse.failure (errFileType defaultSettings) := by
    have e1 : missingRequired exEvilExeForm = false := by decide
    have e2 : matches_email_regex (pyStrip exEvilExeForm.email) = true := by decide
    have e3 : whatsappLenOk exEvilExeForm = true := by decide
    have e4 : sizeWithinLimit ⟨"evil.exe", 1024⟩ defaultSettings = true := by decide
    have e5 : extensionAllowed ⟨"evil.exe", 1024⟩ defaultSettings = false := by decide
    have e6 : exEvilExeForm.attachment = some ⟨"evil.exe", 1024⟩ := rfl
    simp [handle_contact_form, e1, e2, e3, e6, e4, e5]
  by_cases h4 : sizeWithinLimit att fs = true
  · have hsize : att.size ≤ fs.max_file_size_mb * 1024 * 1024 := by
      simpa [sizeWithinLimit] using h4
    by_cases h5 : extensionAllowed att fs = true
    · have hres : (handle_contact_form now form fs af ar db).response
          = FormResponse.success successMessage := by
        simp [handle_contact_form, h1, h2, h3, hatt, h4, h5, persistAndNotify]
      refine ⟨?_, ?_, hov, hev⟩
      · rw [hres]
        constructor
        · intro hc
          simp at hc
        · intro hlt
          exact absurd hlt (by omega)
      · rw [hres]
        constructor
        · intro hc
          simp at hc
        · rintro ⟨-, hext⟩
          rw [h5] at hext
          cases hext
    · rw [Bool.not_eq_true] at h5
      have hres : (handle_contact_form now form fs af ar db).response
          = FormResponse.failure (errFileType fs) := by
        simp [handle_contact_form, h1, h2, h3, hatt, h4, h5]
      refine ⟨?_, ?_, hov, hev⟩
      · rw [hres]
        constructor
        · intro hc
          injection hc with hmsg
          exact absurd hmsg.symm (errFileSize_ne_errFileType _ fs)
        · intro hlt
          exact absurd hlt (by omega)
      · rw [hres]
        exact ⟨fun _ => ⟨hsize, h5⟩, fun _ => rfl⟩
  · rw [Bool.not_eq_true] at h4
    have hlt : fs.max_file_size_mb * 1024 * 1024 < att.size := by
      have := h4
      simp [sizeWithinLimit] at this
      omega
    have hres : (handle_contact_form now form fs af ar db).response
        = FormResponse.failure (errFileSize fs.max_file_size_mb) := by
      simp [handle_contact_form, h1, h2, h3, hatt, h4]
    refine ⟨?_, ?_, hov, hev⟩
    · rw [hres]
      exact ⟨fun _ => hlt, fun _ => rfl⟩
    · rw [hres]
      constructor
      · intro hc
        injection hc with hmsg
        exact absurd hmsg (errFileSize_ne_errFileType _ fs)
      · rintro ⟨hle, -⟩
        exact absurd hlt (by omega)

/-- Witness for C9: the 11 MB attachment against the default settings. -/
theorem attachment_validation_rules_witness :
    sizeWithinLimit ⟨"relatorio.pdf", 11 * 1024 * 1024⟩ defaultSettings = false ∧
    (handle_contact_form 0 exOversizeForm defaultSettings false false []).response
      = FormResponse.failure (errFileSize 10) :=
  ⟨by decide,
   (attachment_validation_rules 0 exOversizeForm defaultSettings false false []
      ⟨"relatorio.pdf", 11 * 1024 * 1024⟩ rfl (by decide) (by decide) (by decide)).2.2.1⟩

/-- A valid submission whose attachment filename has no dot. -/
def exNoDotForm : FormData :=
  { exValidForm with attachment := some ⟨"evilexe", 10⟩ }

/-- C10: when the attachment filename contains no dot, `split('.')[-1]` is
the whole filename, so the computed extension is the lower-cased filename;
the attachment passes the type check exactly when that string occurs
verbatim in the allow-list, and is otherwise rejected with the type
error. -/
theorem attachment_extension_no_dot (now : Nat) (form : FormData)
    (fs : ContactFormSettings) (af ar : Bool) (db : List Contact)
    (att : UploadedFile) (hatt : form.attachment = some att)
    (hnodot : ∀ ch ∈ att.name.data, ch ≠ '.')
    (h1 : missingRequired form = false)
    (h2 : matches_email_regex (pyStrip form.email) = true)
    (h3 : whatsappLenOk form = true)
    (h4 : sizeWithinLimit att fs = true) :
    fileExtension att = pyLower att.name ∧
    ((handle_contact_form now form fs af ar db).response
        = FormResponse.failure (errFileType fs)
      ↔ pyLower att.name ∉ allowedTypes fs) ∧
    (pyLower att.name ∈ allowedTypes fs →
      (handle_contact_form now form fs af ar db).response
        = FormResponse.success successMessage ∧
      (handle_contact_form now form fs af ar db).contacts
        = db ++ [mkContact now form]) := by
  have hext : fileExtension att = pyLower att.name := by
    unfold fileExtension pySplit
    rw [splitOnChar_no_sep '.' att.name.data hnodot]
    rfl
  have hEA : extensionAllowed att fs
      = (allowedTypes fs).contains (pyLower att.name) := by
    unfold extensionAllowed
    rw [hext]
  refine ⟨hext, ?_, ?_⟩
  · by_cases h5 : pyLower att.name ∈ allowedTypes fs
    · have h5e : extensionAllowed att fs = true := by
        rw [hEA]
        exact List.elem_eq_true_of_mem h5
      have hres : (handle_contact_form now form fs af ar db).response
          = FormResponse.success successMessage := by
        simp [handle_contact_form, h1, h2, h3, hatt, h4, h5e, persistAndNotify]
      rw [hres]
      constructor
      · intro hc
        simp at hc
      · intro hnot
        exact absurd h5 hnot
    · have h5e : extensionAllowed att fs = false := by
        rw [hEA]
        cases hb : (allowedTypes fs).contains (pyLower att.name) with
        | false => rfl
        | true => exact absurd (List.mem_of_elem_eq_true hb) h5
      have hres : (handle_contact_form now form fs af ar db).response
          = FormResponse.failure (errFileType fs) := by
        simp [handle_contact_form, h1, h2, h3, hatt, h4, h5e]
      rw [hres]
      exact ⟨fun _ => h5, fun _ => rfl⟩
  · intro h5
    have h5e : extensionAllowed att fs = true := by
      rw [hEA]
      exact List.elem_eq_true_of_mem h5
    constructor <;>
      simp [handle_contact_form, h1, h2, h3, hatt, h4, h5e, persistAndNotify]

/-- Witness for C10: the dotless filename `evilexe` is treated as its own
extension and rejected under the default allow-list. -/
theorem attachment_extension_no_dot_witness :
    (∀ ch ∈ ("evilexe" : String).data, ch ≠ '.') ∧
    ((handle_contact_form 0 exNoDotForm defaultSettings false false []).response
        = FormResponse.failure (errFileType defaultSettings)
      ↔ pyLower "evilexe" ∉ allowedTypes defaultSettings) :=
  ⟨by decide,
   (attachment_extension_no_dot 0 exNoDotForm defaultSettings false false []
      ⟨"evilexe", 10⟩ rfl (by decide) (by decide) (by decide) (by decide)
      (by decide)).2.1⟩

/-- C8: `top_countries` returns only non-empty countries, each with its
exact multiplicity among the events, in descending order of count, stably
within tie groups (the filtered-by-count subsequence of the sort equals
that of the grouping, which lists groups in first-appearance order), of
length `min limit` the number of distinct non-empty countries; on the
event multiset BR, BR, US, BR, US it returns BR 3 then US 2. -/
theorem top_countries_spec (pvs : List PageView) (limit : Nat) :
    (∀ p ∈ top_countries pvs limit,
      p.1 ≠ "" ∧
      p.2 = ((pvs.map (fun v => v.country)).filter (fun c => c != "")).count p.1) ∧
    (top_countries pvs limit).Pairwise (fun a b => b.2 ≤ a.2) ∧
    (∀ k,
      (sortDesc (countryCounts
          ((pvs.map (fun v => v.country)).filter (fun c => c != "")))).filter
        (fun p => p.2 == k)
      = (countryCounts
          ((pvs.map (fun v => v.country)).filter (fun c => c != ""))).filter
        (fun p => p.2 == k)) ∧
    (top_countries pvs limit).length
      = min limit
          (distinctVals ((pvs.map (fun v => v.country)).filter (fun c => c != ""))).length ∧
    top_countries examplePVs 5 = [("BR", 3), ("US", 2)] := by
  refine ⟨?_, ?_, ?_, ?_, ?_⟩
  · intro p hp
    have hp1 : p ∈ sortDesc (countryCounts
        ((pvs.map (fun v => v.country)).filter (fun c => c != ""))) :=
      List.mem_of_mem_take hp
    have hp2 := (mem_sortDesc _ _).mp hp1
    unfold countryCounts at hp2
    rcases List.mem_map.mp hp2 with ⟨c, hc, rfl⟩
    have hcs := (mem_distinctVals c _).mp hc
    have hne : (c != "") = true := (List.mem_filter.mp hcs).2
    exact ⟨by simpa using hne, rfl⟩
  · exact List.Pairwise.sublist (List.take_sublist _ _) (pairwise_sortDesc _)
  · intro k
    exact filter_sortDesc _ k
  · unfold top_countries
    rw [List.length_take, length_sortDesc]
    unfold countryCounts
    rw [List.length_map]
  · decide

/-- Witness for C8: the group BR 3 is produced for the example events and
carries the exact multiplicity of BR. -/
theorem top_countries_spec_witness :
    ("BR", 3) ∈ top_countries examplePVs 5 ∧
    (("BR", 3).1 ≠ "" ∧
     ("BR", 3).2 = ((examplePVs.map (fun v => v.country)).filter
        (fun c => c != "")).count ("BR", 3).1) :=
  ⟨by decide, (top_countries_spec examplePVs 5).1 ("BR", 3) (by decide)⟩

/-- C7: over an inclusive date range the daily breakdown has exactly one
entry per date, in chronological order with no gaps, and a date without
events yields the explicit all-zero entry. -/
theorem daily_breakdown_spec (pvs : List PageView) (cts : List Contact)
    (s e : Nat) (h : s ≤ e) :
    (analytics_daily_stats pvs cts s e).map (fun en => en.date)
      = List.range' s (e - s + 1) ∧
    (analytics_daily_stats pvs cts s e).length = e - s + 1 ∧
    (∀ i, ∀ hi : i < (analytics_daily_stats pvs cts s e).length,
      ((analytics_daily_stats pvs cts s e).get ⟨i, hi⟩).date = s + i) ∧
    (∀ d, s ≤ d → d ≤ e →
      (∀ pv ∈ pvs, pv.ts.day ≠ d) → (∀ c ∈ cts, c.created_day ≠ d) →
      DailyEntry.mk d 0 0 0 ∈ analytics_daily_stats pvs cts s e) := by
  have hn : e + 1 - s = e - s + 1 := by omega
  refine ⟨?_, ?_, ?_, ?_⟩
  · unfold analytics_daily_stats
    rw [List.map_map, hn]
    exact List.map_id' _
  · unfold analytics_daily_stats
    simp [hn]
  · intro i hi
    simp only [analytics_daily_stats, List.get_eq_getElem, List.getElem_map,
      List.getElem_range']
    omega
  · intro d hsd hde hpv hct
    unfold analytics_daily_stats
    apply List.mem_map.mpr
    refine ⟨d, List.mem_range'_1.mpr ⟨hsd, by omega⟩, ?_⟩
    have hfpv : (pvs.filter
        (fun p => decide (s ≤ p.ts.day) && decide (p.ts.day ≤ e))).filter
        (fun p => p.ts.day == d) = [] := by
      rw [List.filter_eq_nil_iff]
      intro a ha
      have hin : a ∈ pvs := List.mem_of_mem_filter ha
      simpa using hpv a hin
    have hfct : (cts.filter
        (fun c => decide (s ≤ c.created_day) && decide (c.created_day ≤ e))).filter
        (fun c => c.created_day == d) = [] := by
      rw [List.filter_eq_nil_iff]
      intro a ha
      have hin : a ∈ cts := List.mem_of_mem_filter ha
      simpa using hct a hin
    rw [hfpv, hfct]
    simp [distinctVals]

/-- Witness for C7: the empty store over the range 0 to 2 yields the three
dates 0, 1, 2. -/
theorem daily_breakdown_spec_witness :
    (0 : Nat) ≤ 2 ∧
    (analytics_daily_stats [] [] 0 2).map (fun en => en.date) = List.range' 0 3 :=
  ⟨by decide, (daily_breakdown_spec [] [] 0 2 (by decide)).1⟩

/-- The date key of the recomputed row is the requested date. -/
theorem update_daily_stats_row_date (d : Nat) (db : AnalyticsDB) :
    (update_daily_stats d db).2.date = d := by
  simp only [update_daily_stats]
  rw [(applyTopCountries_preserve _ _).1]
  show ((db.stats.find? (fun q => q.date == d)).getD (defaultStatsRow d)).date = d
  cases hf : db.stats.find? (fun q => q.date == d) with
  | none => rfl
  | some q =>
    have hq := List.find?_some hf
    simpa using hq

/-- Finding the saved date after a save, stated with an explicit date. -/
theorem find?_saveStatsRow' (r : StatsRow) (rows : List StatsRow) (d : Nat)
    (hd : r.date = d) :
    (saveStatsRow r rows).find? (fun q => q.date == d) = some r := by
  subst hd
  exact find?_saveStatsRow r rows

/-- The store after a recompute: tables unchanged, row saved. -/
theorem update_daily_stats_fst (d : Nat) (db : AnalyticsDB) :
    (update_daily_stats d db).1
      = ⟨db.pageViews, db.contacts,
          saveStatsRow (update_daily_stats d db).2 db.stats⟩ := rfl

/-- C1 (amended): the recomputed `unique_visitors` is the number of
distinct IP addresses among that day's page views (per-day distinct count,
not the first-ever-seen count), and the saved row is retrievable under its
date. -/
theorem update_daily_stats_unique_visitors (d : Nat) (db : AnalyticsDB) :
    (update_daily_stats d db).2.unique_visitors
      = (distinctVals ((db.pageViews.filter (fun p => p.ts.day == d)).map
          (fun p => p.ip_address))).length ∧
    (update_daily_stats d db).1.stats.find? (fun q => q.date == d)
      = some (update_daily_stats d db).2 := by
  constructor
  · simp only [update_daily_stats]
    rw [(applyTopCountries_preserve _ _).2.2.1]
  · rw [update_daily_stats_fst]
    exact find?_saveStatsRow' _ _ d (update_daily_stats_row_date d db)

/-- Counterexample for C1 as stated: an IP with an event on day 0 and one
on day 1 is counted by `update_daily_stats` as a unique visitor of day 1,
while under the first-ever-seen rule day 1 has zero unique visitors. -/
theorem update_daily_stats_repeat_ip_counterexample :
    (update_daily_stats 1 exRepeatDB).2.unique_visitors = 1 ∧
    specFirstEverUniqueCount exRepeatDB.pageViews 1 = 0 := by
  decide

/-- The recomputed fields of the row are the day's aggregates (used to
show a second recompute writes the same values). -/
theorem update_daily_stats_fields (d : Nat) (db : AnalyticsDB) :
    (update_daily_stats d db).2.total_views
      = (db.pageViews.filter (fun p => p.ts.day == d)).length ∧
    (update_daily_stats d db).2.unique_visitors
      = (distinctVals ((db.pageViews.filter (fun p => p.ts.day == d)).map
          (fun p => p.ip_address))).length ∧
    (update_daily_stats d db).2.contact_submissions
      = (db.contacts.filter (fun c => c.created_day == d)).length ∧
    (update_daily_stats d db).2.desktop_views
      = ((db.pageViews.filter (fun p => p.ts.day == d)).filter
          (fun p => p.device_type == "desktop")).length ∧
    (update_daily_stats d db).2.mobile_views
      = ((db.pageViews.filter (fun p => p.ts.day == d)).filter
          (fun p => p.device_type == "mobile")).length ∧
    (update_daily_stats d db).2.tablet_views
      = ((db.pageViews.filter (fun p => p.ts.day == d)).filter
          (fun p => p.device_type == "tablet")).length := by
  refine ⟨?_, ?_, ?_, ?_, ?_, ?_⟩ <;>
    · simp only [update_daily_stats]
      first
      | rw [(applyTopCountries_preserve _ _).2.1]
      | rw [(applyTopCountries_preserve _ _).2.2.1]
      | rw [(applyTopCountries_preserve _ _).2.2.2.1]
      | rw [(applyTopCountries_preserve _ _).2.2.2.2.1]
      | rw [(applyTopCountries_preserve _ _).2.2.2.2.2.1]
      | rw [(applyTopCountries_preserve _ _).2.2.2.2.2.2]

/-- A recompute over an unchanged store that already holds the recomputed
row produces the same row again. -/
theorem update_daily_stats_snd_stable (d : Nat) (db1 db2 : AnalyticsDB)
    (hpv : db2.pageViews = db1.pageViews) (hct : db2.contacts = db1.contacts)
    (hfind : db2.stats.find? (fun q => q.date == d)
      = some (update_daily_stats d db1).2) :
    (update_daily_stats d db2).2 = (update_daily_stats d db1).2 := by
  obtain ⟨h1, h2, h3, h4, h5, h6⟩ := update_daily_stats_fields d db1
  conv_lhs => simp only [update_daily_stats]
  rw [hpv, hct, hfind, Option.getD_some]
  rw [statsRow_overwrite_eq _ _ _ _ _ _ _ h1 h2 h3 h4 h5 h6]
  simp only [update_daily_stats]
  exact applyTopCountries_idem _ _

/-- C6: recomputing the daily summary twice in succession over unchanged
`PageView` and `Contact` tables yields the identical store and row. -/
theorem update_daily_stats_idempotent (d : Nat) (db : AnalyticsDB) :
    update_daily_stats d (update_daily_stats d db).1 = update_daily_stats d db := by
  have hfind : (update_daily_stats d db).1.stats.find? (fun q => q.date == d)
      = some (update_daily_stats d db).2 := by
    rw [update_daily_stats_fst]
    exact find?_saveStatsRow' _ _ d (update_daily_stats_row_date d db)
  have hsnd : (update_daily_stats d (update_daily_stats d db).1).2
      = (update_daily_stats d db).2 :=
    update_daily_stats_snd_stable d db (update_daily_stats d db).1
      (by rw [update_daily_stats_fst]) (by rw [update_daily_stats_fst]) hfind
  have hfst : (update_daily_stats d (update_daily_stats d db).1).1
      = (update_daily_stats d db).1 := by
    rw [update_daily_stats_fst d (update_daily_stats d db).1, hsnd]
    rw [update_daily_stats_fst d db]
    rw [saveStatsRow_idem]
  exact Prod.ext hfst hsnd

end Portfolio
